import Mathlib

/-!
Shallow embedding of `src/app.py`, a Flask survey-driven progress tracker.

The configuration table `SURVEY_QUESTIONS`, the session helper
`get_user_progress`, the summary computation of the `index` route and the
`survey` route handler are translated here as pure functions.  The Flask
session is modelled as an `Option Progress` (`none` = fresh session, no
progress record yet); each handler returns its response together with the
session state after the request.  A `KeyError` (progress dict missing a
category key) is modelled by returning `none` from the handler.

Python `float` arithmetic in the percent computation of `index` is modelled
exactly: binary64 values arising there are represented as rationals and each
operation is followed by correct rounding to 53 significant bits
(round-to-nearest, ties to even), valid for magnitudes in [2^-60, 2^60),
which covers every value the computation can produce for the configured
categories.
-/

/-- One entry of a category's level list: `{"level": n, "questions": [...]}`. -/
structure LevelData where
  level : Nat
  questions : List String
deriving DecidableEq, Repr

/-- The static configuration table `SURVEY_QUESTIONS` from `src/app.py`,
with the insertion order of the Python dict preserved. -/
def SURVEY_QUESTIONS : List (String × List LevelData) :=
  [ ("spiritual",
      [ { level := 1, questions :=
            [ "Did you set aside time for prayer or meditation today?",
              "Did you read a passage from a religious or philosophical text?" ] },
        { level := 2, questions :=
            [ "Have you engaged in a community service or outreach activity this week?",
              "Have you participated in a group worship, study or reflection session recently?" ] },
        { level := 3, questions :=
            [ "Do you feel your spiritual practice is deepening over time?",
              "Are you mentoring or supporting others in their spiritual journey?" ] } ]),
    ("physical",
      [ { level := 1, questions :=
            [ "Did you complete at least 30 minutes of physical activity today?",
              "Did you drink at least 8 cups of water today?" ] },
        { level := 2, questions :=
            [ "Did you eat a balanced meal with fruits and vegetables today?",
              "Have you consistently slept 7–8 hours per night this week?" ] },
        { level := 3, questions :=
            [ "Are you following a regular exercise routine that challenges you?",
              "Have you reached or maintained a healthy weight range?" ] } ]),
    ("mental",
      [ { level := 1, questions :=
            [ "Did you practice a stress‑relief technique like mindfulness or deep breathing today?",
              "Did you take a break from screens and social media for at least 30 minutes?" ] },
        { level := 2, questions :=
            [ "Have you connected with a friend, family member or counselor to talk about how you\x27re feeling?",
              "Did you spend time on a hobby or creative activity that you enjoy?" ] },
        { level := 3, questions :=
            [ "Are you regularly journaling or reflecting on your emotions?",
              "Do you feel you can manage stress and challenges in a healthy way?" ] } ]) ]

/-- One `{"question": q, "answer": a}` entry of a submitted answer list. -/
structure Answer where
  question : String
  answer : String
deriving DecidableEq, Repr

/-- One `{"level": n, "answers": [...]}` record appended to `responses`. -/
structure ResponseRecord where
  level : Nat
  answers : List Answer
deriving DecidableEq, Repr

/-- The per-category progress dict: `{"level": n, "responses": [...], "badges": [...]}`. -/
structure CatProgress where
  level : Nat
  responses : List ResponseRecord
  badges : List String
deriving DecidableEq, Repr

/-- The per-session progress dict, keyed by category name (insertion order kept). -/
abbrev Progress := List (String × CatProgress)

/-- Lookup in the configuration dict: `SURVEY_QUESTIONS[c]` / `c in SURVEY_QUESTIONS`. -/
def lookupConfig (c : String) : Option (List LevelData) :=
  (SURVEY_QUESTIONS.find? (fun e => decide (e.1 = c))).map (·.2)

/-- Lookup in a progress dict: `progress[c]`. -/
def lookupCat (p : Progress) (c : String) : Option CatProgress :=
  (p.find? (fun e => decide (e.1 = c))).map (·.2)

/-- In-place mutation of the value at key `c` of a progress dict. -/
def updateCat (p : Progress) (c : String) (v : CatProgress) : Progress :=
  p.map (fun e => if e.1 = c then (c, v) else e)

/-- ASCII lowering of one character, as Python `str.lower` acts on ASCII. -/
def pyLowerChar (ch : Char) : Char :=
  if 65 ≤ ch.toNat ∧ ch.toNat ≤ 90 then Char.ofNat (ch.toNat + 32) else ch

/-- ASCII raising of one character, as Python `str.upper` acts on ASCII. -/
def pyUpperChar (ch : Char) : Char :=
  if 97 ≤ ch.toNat ∧ ch.toNat ≤ 122 then Char.ofNat (ch.toNat - 32) else ch

/-- Python `str.lower()` (ASCII fragment). -/
def pyLower (s : String) : String :=
  String.mk (s.data.map pyLowerChar)

/-- Python `str.capitalize()` (ASCII fragment): first character upper-cased,
the rest lower-cased. -/
def pyCapitalize (s : String) : String :=
  match s.data with
  | [] => ""
  | ch :: rest => String.mk (pyUpperChar ch :: rest.map pyLowerChar)

/-- The progress record `get_user_progress` installs on a fresh session:
every configured category at level 0 with empty responses and badges. -/
def initProgress : Progress :=
  SURVEY_QUESTIONS.map (fun e => (e.1, { level := 0, responses := [], badges := [] }))

/-- `get_user_progress()` from `src/app.py`: returns the session's progress
record, creating `initProgress` when the session has none.  After the call the
session holds exactly the returned record. -/
def get_user_progress (sess : Option Progress) : Progress :=
  match sess with
  | none => initProgress
  | some p => p

/-- HTTP method of a request to `/survey/{category}`. -/
inductive Method where
  | GET : Method
  | POST : Method
deriving DecidableEq, Repr

/-- Responses the `survey` handler can produce: a redirect to `/` or a
rendered `survey.html` page with the template arguments passed at line 166. -/
inductive Response where
  | redirectIndex : Response
  | renderSurvey (category : String) (level : Nat) (questions : List String) : Response
deriving DecidableEq, Repr

/-- A submitted form, as Flask's `request.form.get`: field name to optional value. -/
abbrev Form := String → Option String

/-- The answer list built by the POST branch of `survey`: one entry per
question of the level, reading field `q<idx>` with default `""`. -/
def collectAnswers (questions : List String) (form : Form) : List Answer :=
  questions.enum.map (fun iq => { question := iq.2, answer := (form ("q" ++ toString iq.1)).getD "" })

/-- Body of the `survey` route handler after `category = category.lower()`
(line 131).  Returns `none` on a `KeyError` (progress record lacking the
category key, impossible for records produced by `get_user_progress`). -/
def survey_lc (sess : Option Progress) (c : String) (method : Method) (form : Form) :
    Option (Response × Option Progress) :=
  match lookupConfig c with
  | none => some (.redirectIndex, sess)
  | some levels =>
    let progress := get_user_progress sess
    match lookupCat progress c with
    | none => none
    | some user_cat_data =>
      let current_level := user_cat_data.level + 1
      let total_levels := levels.length
      if total_levels < current_level then
        some (.redirectIndex, some progress)
      else
        match levels.find? (fun lvl => decide (lvl.level = current_level)) with
        | none => some (.redirectIndex, some progress)
        | some level_data =>
          match method with
          | .POST =>
            let answers := collectAnswers level_data.questions form
            let ucd' : CatProgress :=
              { level := current_level
                responses := user_cat_data.responses ++ [{ level := current_level, answers := answers }]
                badges :=
                  if current_level = total_levels then
                    user_cat_data.badges ++ [pyCapitalize c ++ " Champion"]
                  else
                    user_cat_data.badges }
            some (.redirectIndex, some (updateCat progress c ucd'))
          | .GET =>
            some (.renderSurvey c current_level level_data.questions, some progress)

/-- The `survey` route handler of `src/app.py` (lines 119-166). -/
def survey (sess : Option Progress) (category : String) (method : Method) (form : Form) :
    Option (Response × Option Progress) :=
  survey_lc sess (pyLower category) method form

/-- Round the nonnegative fraction `a / b` (with `b > 0`) to the nearest
integer, ties to even (the IEEE default rounding). -/
def roundHalfEven (a b : Nat) : Nat :=
  let n := a / b
  let r := a % b
  if 2 * r < b then n
  else if b < 2 * r then n + 1
  else if n % 2 = 0 then n else n + 1

/-- The shifted binade index of the positive fraction `a / b`: the `i` such
that `2 ^ (i - 60) ≤ a / b < 2 ^ (i - 60 + 1)`, found for magnitudes in
`[2 ^ (-60), 2 ^ 61)`. -/
def binadeIndex (a b : Nat) : Nat :=
  ((List.range 121).find?
    (fun i => decide (2 ^ i * b ≤ a * 2 ^ 60 ∧ a * 2 ^ 60 < 2 ^ (i + 1) * b))).getD 60

/-- Correct rounding of the nonnegative fraction `a / b` (with `b > 0`) to an
IEEE binary64 value (53 significant bits, round-to-nearest, ties to even),
exact for magnitudes in `[2 ^ (-60), 2 ^ 61)`; the resulting float is returned
by its exact rational value, as a numerator together with a power-of-two
denominator. -/
def fl (a b : Nat) : Nat × Nat :=
  if a = 0 then (0, 1)
  else
    let i := binadeIndex a b
    if i ≤ 112 then
      let s := 112 - i
      (roundHalfEven (a * 2 ^ s) b, 2 ^ s)
    else
      let t := i - 112
      (roundHalfEven a (b * 2 ^ t) * 2 ^ t, 1)

/-- Line 108 of `src/app.py`:
`percent_complete = int((completed_levels / total_levels) * 100)`, with `/`
Python float true division, `*` float multiplication (both correctly rounded
binary64 operations) and `int()` truncation toward zero of the nonnegative
result. -/
def percent_complete (completed_levels total_levels : Nat) : Nat :=
  let q := fl completed_levels total_levels
  let p := fl (q.1 * 100) q.2
  p.1 / p.2

/-- One entry of `categories_info` built by the `index` route. -/
structure CategoryInfo where
  name : String
  key : String
  percent : Nat
  badges : List String
  next_level : Option Nat
deriving DecidableEq, Repr

/-- The `categories_info` entry the `index` route builds for one progress
item; `none` models the `KeyError` when the key is not configured. -/
def categoryInfo (category : String) (data : CatProgress) : Option CategoryInfo :=
  (lookupConfig category).map fun levels =>
    let total_levels := levels.length
    let completed_levels := data.level
    { name := pyCapitalize category
      key := category
      percent := percent_complete completed_levels total_levels
      badges := data.badges
      next_level := if completed_levels < total_levels then some (completed_levels + 1) else none }

/-- The `index` route handler of `src/app.py` (lines 95-116): renders the
summary from the (possibly freshly initialized) progress record. -/
def index (sess : Option Progress) : Option (List CategoryInfo × Option Progress) :=
  let progress := get_user_progress sess
  (progress.mapM (fun e => categoryInfo e.1 e.2)).map (fun infos => (infos, some progress))

/-- Session states reachable from a fresh session by any sequence of requests:
`get_user_progress` is invoked by the `index` route and at line 135 of the
`survey` route, and `survey` covers both GET and POST to `/survey/{category}`. -/
inductive Reach : Option Progress → Prop where
  | init : Reach none
  | getProgress {s : Option Progress} : Reach s → Reach (some (get_user_progress s))
  | surveyStep {s : Option Progress} {cat : String} {m : Method} {form : Form}
      {r : Response} {s' : Option Progress} :
      Reach s → survey s cat m form = some (r, s') → Reach s'

/-- The per-category data invariant, relative to the category's total level
count `tl`: the level is within range, one response has been recorded per
completed level, and the single champion badge is present exactly when the
final level has been completed. -/
def CatInv (tl : Nat) (cp : CatProgress) : Prop :=
  cp.level ≤ tl ∧ cp.responses.length = cp.level ∧
    cp.badges.length = (if cp.level = tl then 1 else 0)

/-- The progress-record invariant: the record has exactly the configured
categories as keys (in configuration order) and every entry satisfies
`CatInv` for its category's total level count. -/
def ProgInv (p : Progress) : Prop :=
  p.map Prod.fst = SURVEY_QUESTIONS.map Prod.fst ∧
    ∀ c cp levels, lookupCat p c = some cp → lookupConfig c = some levels →
      CatInv levels.length cp

/-! ### Helper lemmas about the embedded operations -/

theorem charOfNat_toNat {n : Nat} (h : n < 55296) : (Char.ofNat n).toNat = n := by
  have hv : n.isValidChar := Or.inl h
  simp [Char.ofNat, hv, Char.ofNatAux, Char.toNat]
  rfl

theorem pyLowerChar_idem (ch : Char) : pyLowerChar (pyLowerChar ch) = pyLowerChar ch := by
  unfold pyLowerChar
  by_cases h : 65 ≤ ch.toNat ∧ ch.toNat ≤ 90
  · rw [if_pos h, if_neg]
    rw [charOfNat_toNat (by omega)]
    omega
  · rw [if_neg h, if_neg h]

theorem pyLower_idem (s : String) : pyLower (pyLower s) = pyLower s := by
  unfold pyLower
  simp only [List.map_map]
  exact congrArg String.mk (List.map_congr_left (fun ch _ => pyLowerChar_idem ch))

theorem config_length {c : String} {levels : List LevelData}
    (h : lookupConfig c = some levels) : levels.length = 3 := by
  unfold lookupConfig at h
  cases hf : SURVEY_QUESTIONS.find? (fun e => decide (e.1 = c)) with
  | none => rw [hf] at h; simp at h
  | some e =>
    rw [hf] at h
    have hmem := List.mem_of_find?_eq_some hf
    simp only [SURVEY_QUESTIONS, List.mem_cons, List.mem_singleton] at hmem
    rcases hmem with rfl | rfl | rfl | hmem
    · cases h; rfl
    · cases h; rfl
    · cases h; rfl
    · cases hmem

theorem config_find_level {c : String} {levels : List LevelData}
    (h : lookupConfig c = some levels) {n : Nat} (hn : n < levels.length) :
    ∃ ld, levels.find? (fun lvl => decide (lvl.level = n + 1)) = some ld ∧
      ld.level = n + 1 := by
  unfold lookupConfig at h
  cases hf : SURVEY_QUESTIONS.find? (fun e => decide (e.1 = c)) with
  | none => rw [hf] at h; simp at h
  | some e =>
    rw [hf] at h
    have hmem := List.mem_of_find?_eq_some hf
    simp only [SURVEY_QUESTIONS, List.mem_cons, List.mem_singleton] at hmem
    rcases hmem with rfl | rfl | rfl | hmem
    · cases h
      simp only [List.length_cons, List.length_nil] at hn
      interval_cases n <;> exact ⟨_, rfl, rfl⟩
    · cases h
      simp only [List.length_cons, List.length_nil] at hn
      interval_cases n <;> exact ⟨_, rfl, rfl⟩
    · cases h
      simp only [List.length_cons, List.length_nil] at hn
      interval_cases n <;> exact ⟨_, rfl, rfl⟩
    · cases hmem

theorem lookupCat_updateCat_self {p : Progress} {c : String} {cp : CatProgress}
    (h : lookupCat p c = some cp) (v : CatProgress) :
    lookupCat (updateCat p c v) c = some v := by
  induction p with
  | nil => simp [lookupCat] at h
  | cons e rest ih =>
    by_cases hk : e.1 = c
    · simp [lookupCat, updateCat, List.find?_cons, hk]
    · simp only [lookupCat, updateCat, List.map_cons, List.find?_cons, if_neg hk] at *
      simp only [hk, decide_False] at *
      exact ih h

theorem lookupCat_updateCat_ne {p : Progress} {c c' : String} (hne : c' ≠ c)
    (v : CatProgress) :
    lookupCat (updateCat p c v) c' = lookupCat p c' := by
  induction p with
  | nil => rfl
  | cons e rest ih =>
    simp only [lookupCat, updateCat, List.map_cons, List.find?_cons] at ih ⊢
    by_cases hk : e.1 = c
    · have hcc' : ¬ (c = c') := fun hh => hne hh.symm
      have hec' : ¬ (e.1 = c') := by rw [hk]; exact hcc'
      rw [if_pos hk]
      simp only [List.find?_cons, hcc', hec', decide_False]
      exact ih
    · rw [if_neg hk]
      by_cases hk' : e.1 = c'
      · simp [List.find?_cons, hk']
      · simp only [List.find?_cons, hk', decide_False]
        exact ih

theorem updateCat_keys (p : Progress) (c : String) (v : CatProgress) :
    (updateCat p c v).map Prod.fst = p.map Prod.fst := by
  induction p with
  | nil => rfl
  | cons e rest ih =>
    by_cases hk : e.1 = c
    · simp only [updateCat, List.map_cons, if_pos hk] at *
      rw [ih]
      simp [← hk]
    · simp only [updateCat, List.map_cons, if_neg hk] at *
      rw [ih]

theorem lookupCat_initProgress (c : String) :
    lookupCat initProgress c =
      (lookupConfig c).map (fun _ => { level := 0, responses := [], badges := [] }) := by
  unfold lookupCat initProgress lookupConfig
  generalize SURVEY_QUESTIONS = l
  induction l with
  | nil => rfl
  | cons e rest ih =>
    by_cases hk : e.1 = c
    · simp [List.find?_cons, hk]
    · simp only [List.map_cons, List.find?_cons, hk, decide_False]
      exact ih

theorem survey_lc_unknown {c : String} (hc : lookupConfig c = none)
    (sess : Option Progress) (m : Method) (form : Form) :
    survey_lc sess c m form = some (.redirectIndex, sess) := by
  simp [survey_lc, hc]

theorem survey_lc_complete {c : String} {levels : List LevelData} {cp : CatProgress}
    (sess : Option Progress) (m : Method) (form : Form)
    (hc : lookupConfig c = some levels)
    (hp : lookupCat (get_user_progress sess) c = some cp)
    (hge : levels.length ≤ cp.level) :
    survey_lc sess c m form = some (.redirectIndex, some (get_user_progress sess)) := by
  simp only [survey_lc, hc, hp]
  rw [if_pos (by omega)]

theorem survey_lc_get {c : String} {levels : List LevelData} {cp : CatProgress}
    {ld : LevelData} (sess : Option Progress) (form : Form)
    (hc : lookupConfig c = some levels)
    (hp : lookupCat (get_user_progress sess) c = some cp)
    (hlt : cp.level < levels.length)
    (hfind : levels.find? (fun lvl => decide (lvl.level = cp.level + 1)) = some ld) :
    survey_lc sess c .GET form =
      some (.renderSurvey c (cp.level + 1) ld.questions, some (get_user_progress sess)) := by
  simp only [survey_lc, hc, hp, hfind]
  rw [if_neg (by omega)]

theorem survey_lc_post {c : String} {levels : List LevelData} {cp : CatProgress}
    {ld : LevelData} (sess : Option Progress) (form : Form)
    (hc : lookupConfig c = some levels)
    (hp : lookupCat (get_user_progress sess) c = some cp)
    (hlt : cp.level < levels.length)
    (hfind : levels.find? (fun lvl => decide (lvl.level = cp.level + 1)) = some ld) :
    survey_lc sess c .POST form =
      some (.redirectIndex, some (updateCat (get_user_progress sess) c
        { level := cp.level + 1
          responses := cp.responses ++
            [{ level := cp.level + 1, answers := collectAnswers ld.questions form }]
          badges :=
            if cp.level + 1 = levels.length then cp.badges ++ [pyCapitalize c ++ " Champion"]
            else cp.badges })) := by
  simp only [survey_lc, hc, hp, hfind]
  rw [if_neg (by omega)]

theorem survey_lc_cases {sess : Option Progress} {c : String} {m : Method} {form : Form}
    {r : Response} {s' : Option Progress}
    (h : survey_lc sess c m form = some (r, s')) :
    s' = sess ∨ s' = some (get_user_progress sess) ∨
      (∃ levels cp ld, lookupConfig c = some levels ∧
        lookupCat (get_user_progress sess) c = some cp ∧
        cp.level < levels.length ∧
        levels.find? (fun lvl => decide (lvl.level = cp.level + 1)) = some ld ∧
        m = .POST ∧ r = .redirectIndex ∧
        s' = some (updateCat (get_user_progress sess) c
          { level := cp.level + 1
            responses := cp.responses ++
              [{ level := cp.level + 1, answers := collectAnswers ld.questions form }]
            badges :=
              if cp.level + 1 = levels.length then cp.badges ++ [pyCapitalize c ++ " Champion"]
              else cp.badges })) := by
  cases hc : lookupConfig c with
  | none =>
    rw [survey_lc_unknown hc sess m form] at h
    left
    exact (congrArg Prod.snd (Option.some.inj h)).symm
  | some levels =>
    cases hp : lookupCat (get_user_progress sess) c with
    | none =>
      simp only [survey_lc, hc, hp] at h
      exact Option.noConfusion h
    | some cp =>
      by_cases hge : levels.length ≤ cp.level
      · rw [survey_lc_complete sess m form hc hp hge] at h
        right; left
        exact (congrArg Prod.snd (Option.some.inj h)).symm
      · push_neg at hge
        cases hfind : levels.find? (fun lvl => decide (lvl.level = cp.level + 1)) with
        | none =>
          simp only [survey_lc, hc, hp, hfind] at h
          rw [if_neg (by omega)] at h
          right; left
          exact (congrArg Prod.snd (Option.some.inj h)).symm
        | some ld =>
          cases m with
          | GET =>
            rw [survey_lc_get sess form hc hp hge hfind] at h
            right; left
            exact (congrArg Prod.snd (Option.some.inj h)).symm
          | POST =>
            rw [survey_lc_post sess form hc hp hge hfind] at h
            have h2 := Option.some.inj h
            right; right
            exact ⟨levels, cp, ld, rfl, rfl, hge, hfind, rfl,
              (congrArg Prod.fst h2).symm, (congrArg Prod.snd h2).symm⟩

theorem progInv_init : ProgInv initProgress := by
  constructor
  · rfl
  · intro c cp levels hl hcfg
    rw [lookupCat_initProgress, hcfg] at hl
    simp only [Option.map_some'] at hl
    obtain rfl := Option.some.inj hl.symm
    refine ⟨Nat.zero_le _, rfl, ?_⟩
    rw [config_length hcfg]
    rfl

theorem progInv_get (s : Option Progress) (h : ∀ p, s = some p → ProgInv p) :
    ProgInv (get_user_progress s) := by
  cases s with
  | none => exact progInv_init
  | some p => exact h p rfl

theorem reach_progInv {s : Option Progress} (hr : Reach s) :
    ∀ p, s = some p → ProgInv p := by
  induction hr with
  | init => exact fun p hp => Option.noConfusion hp
  | getProgress hr ih =>
    intro p hp
    obtain rfl := Option.some.inj hp
    exact progInv_get _ ih
  | @surveyStep s0 cat m form r st hr heq ih =>
    intro p' hp'
    subst hp'
    unfold survey at heq
    rcases survey_lc_cases heq with hs | hs | ⟨levels, cp, ld, hc, hp, hlt, hfind, hm, hrr, hs⟩
    · exact ih p' hs.symm
    · have hgi := progInv_get _ ih
      rwa [Option.some.inj hs]
    · have hpi := progInv_get _ ih
      obtain rfl := Option.some.inj hs
      constructor
      · rw [updateCat_keys]
        exact hpi.1
      · intro c' cp' levels' hl' hcfg'
        by_cases hcc : c' = pyLower cat
        · subst hcc
          rw [lookupCat_updateCat_self hp _] at hl'
          obtain rfl := Option.some.inj hl'.symm
          obtain rfl := Option.some.inj (hc.symm.trans hcfg')
          obtain ⟨h1, h2, h3⟩ := hpi.2 _ cp levels hp hc
          refine ⟨hlt, ?_, ?_⟩
          · simp only [List.length_append, List.length_cons, List.length_nil, h2]
          · show (if cp.level + 1 = levels.length
                then cp.badges ++ [pyCapitalize (pyLower cat) ++ " Champion"]
                else cp.badges).length = if cp.level + 1 = levels.length then 1 else 0
            rw [if_neg (by omega)] at h3
            by_cases hfin : cp.level + 1 = levels.length
            · rw [if_pos hfin, if_pos hfin]
              simp [h3]
            · rw [if_neg hfin, if_neg hfin]
              exact h3
        · rw [lookupCat_updateCat_ne hcc _] at hl'
          exact hpi.2 c' cp' levels' hl' hcfg'

/-! ### Claim theorems -/

/-- Claim C1: for every category and every progress state with
`level n < total_levels`, a POST to `/survey/{category}` resolves the level
server-side as `n + 1` regardless of the submitted form, appends exactly one
response record with `level = n + 1` to `responses`, and sets `level` to
`n + 1`. -/
theorem submit_survey_advances_level (p : Progress) (cat : String) (form : Form)
    {levels : List LevelData} {cp : CatProgress}
    (hc : lookupConfig (pyLower cat) = some levels)
    (hp : lookupCat p (pyLower cat) = some cp)
    (hlt : cp.level < levels.length) :
    ∃ p' cp' rec,
      survey (some p) cat .POST form = some (.redirectIndex, some p') ∧
      lookupCat p' (pyLower cat) = some cp' ∧
      cp'.level = cp.level + 1 ∧
      cp'.responses = cp.responses ++ [rec] ∧
      rec.level = cp.level + 1 := by
  obtain ⟨ld, hfind, hld⟩ := config_find_level hc hlt
  have hpost := survey_lc_post (some p) form hc hp hlt hfind
  exact ⟨_, _, _, hpost, lookupCat_updateCat_self hp _, rfl, rfl, rfl⟩

/-- Claim C2: a POST whose resolved level equals the category's total level
count appends exactly the badge `"<Category> Champion"` (category name
capitalized) to `badges`, and a POST for any non-final level appends no
badge. -/
theorem submit_survey_badge_on_final_level (p : Progress) (cat : String) (form : Form)
    {levels : List LevelData} {cp : CatProgress}
    (hc : lookupConfig (pyLower cat) = some levels)
    (hp : lookupCat p (pyLower cat) = some cp)
    (hlt : cp.level < levels.length) :
    ∃ p' cp',
      survey (some p) cat .POST form = some (.redirectIndex, some p') ∧
      lookupCat p' (pyLower cat) = some cp' ∧
      (cp.level + 1 = levels.length →
        cp'.badges = cp.badges ++ [pyCapitalize (pyLower cat) ++ " Champion"]) ∧
      (cp.level + 1 ≠ levels.length → cp'.badges = cp.badges) := by
  obtain ⟨ld, hfind, hld⟩ := config_find_level hc hlt
  have hpost := survey_lc_post (some p) form hc hp hlt hfind
  refine ⟨_, _, hpost, lookupCat_updateCat_self hp _, ?_, ?_⟩
  · intro hfin
    show (if cp.level + 1 = levels.length
        then cp.badges ++ [pyCapitalize (pyLower cat) ++ " Champion"]
        else cp.badges) = _
    rw [if_pos hfin]
  · intro hfin
    show (if cp.level + 1 = levels.length
        then cp.badges ++ [pyCapitalize (pyLower cat) ++ " Champion"]
        else cp.badges) = _
    rw [if_neg hfin]

/-- Claim C3: in every session state reachable from a fresh session by any
sequence of `get_user_progress`, GET and POST requests, every category entry
satisfies `0 ≤ level ≤ total_levels`, `responses.length = level`, and
`badges.length ≤ 1`. -/
theorem reachable_progress_invariant {s : Option Progress} (hr : Reach s)
    {p : Progress} (hs : s = some p) {c : String} {cp : CatProgress}
    {levels : List LevelData}
    (hl : lookupCat p c = some cp) (hcfg : lookupConfig c = some levels) :
    0 ≤ cp.level ∧ cp.level ≤ levels.length ∧
      cp.responses.length = cp.level ∧ cp.badges.length ≤ 1 := by
  obtain ⟨h1, h2, h3⟩ := (reach_progInv hr p hs).2 c cp levels hl hcfg
  refine ⟨Nat.zero_le _, h1, h2, ?_⟩
  rcases Nat.lt_or_ge cp.level levels.length with hlt | hge
  · rw [if_neg (by omega)] at h3
    omega
  · rw [if_pos (by omega)] at h3
    omega

/-- Claim C4: across any request sequence from the initial session state, the
`level` of a category never decreases under a `survey` request and never
exceeds the category's total level count; once it equals the total the
request redirects and leaves the session unchanged (terminal state). -/
theorem level_monotone_bounded_terminal {s : Option Progress} (hr : Reach s)
    (cat : String) (m : Method) (form : Form) {r : Response} {s' : Option Progress}
    (hsv : survey s cat m form = some (r, s')) :
    (∀ p p' c cp cp' levels, s = some p → s' = some p' →
      lookupCat p c = some cp → lookupCat p' c = some cp' →
      lookupConfig c = some levels →
      cp.level ≤ cp'.level ∧ cp'.level ≤ levels.length) ∧
    (∀ p cp levels, s = some p → lookupCat p (pyLower cat) = some cp →
      lookupConfig (pyLower cat) = some levels → cp.level = levels.length →
      r = .redirectIndex ∧ s' = s) := by
  constructor
  · intro p p' c cp cp' levels hsp hsp' hl hl' hcfg
    have hbound : cp'.level ≤ levels.length :=
      ((reach_progInv (Reach.surveyStep hr hsv) p' hsp').2 c cp' levels hl' hcfg).1
    refine ⟨?_, hbound⟩
    subst hsp
    subst hsp'
    unfold survey at hsv
    rcases survey_lc_cases hsv with hs | hs | ⟨levels0, cp0, ld, hc0, hp0, hlt0, hfind0, hm0, hrr0, hs⟩
    · obtain rfl := Option.some.inj hs
      rw [hl] at hl'
      obtain rfl := Option.some.inj hl'.symm
      exact Nat.le_refl _
    · obtain rfl := Option.some.inj hs
      rw [hl] at hl'
      obtain rfl := Option.some.inj hl'.symm
      exact Nat.le_refl _

    · obtain rfl := Option.some.inj hs
      simp only [get_user_progress] at hp0 hl'
      by_cases hcc : c = pyLower cat
      · subst hcc
        rw [lookupCat_updateCat_self hp0 _] at hl'
        obtain rfl := Option.some.inj hl'.symm
        rw [hl] at hp0
        obtain rfl := Option.some.inj hp0.symm
        exact Nat.le_succ _
      · rw [lookupCat_updateCat_ne hcc _] at hl'
        rw [hl] at hl'
        obtain rfl := Option.some.inj hl'.symm
        exact Nat.le_refl _
  · intro p cp levels hsp hl hcfg hfull
    subst hsp
    have hcomp := survey_lc_complete (some p) m form hcfg hl (le_of_eq hfull.symm)
    unfold survey at hsv
    rw [hcomp] at hsv
    have h2 := Option.some.inj hsv
    exact ⟨(congrArg Prod.fst h2).symm, (congrArg Prod.snd h2).symm⟩

/-- Claim C5: on a session with no progress record, `get_user_progress`
creates a record mapping every configured category (and nothing else) to
level 0, empty responses and empty badges; repeated calls on the same session
state return the record unchanged. -/
theorem get_user_progress_init_idempotent :
    ((∀ c levels, lookupConfig c = some levels →
        lookupCat (get_user_progress none) c =
          some { level := 0, responses := [], badges := [] }) ∧
      (get_user_progress none).map Prod.fst = SURVEY_QUESTIONS.map Prod.fst) ∧
    (∀ s : Option Progress,
      get_user_progress (some (get_user_progress s)) = get_user_progress s) := by
  refine ⟨⟨?_, rfl⟩, ?_⟩
  · intro c levels hcfg
    rw [show get_user_progress none = initProgress from rfl, lookupCat_initProgress, hcfg]
    rfl
  · intro s
    cases s <;> rfl

/-- Claim C6: the percent value computed by the summary page (Python float
arithmetic, then `int()` truncation) equals the exact integer
`floor(100 * completed_level / total_levels)` for every configured category
and every in-range level; in particular it equals 33 for level 1 of 3. -/
theorem percent_complete_is_exact_floor :
    (∀ c levels l, lookupConfig c = some levels → l ≤ levels.length →
      percent_complete l levels.length = 100 * l / levels.length) ∧
    percent_complete 1 3 = 33 := by
  refine ⟨?_, by decide⟩
  intro c levels l hcfg hl
  rw [config_length hcfg] at hl ⊢
  interval_cases l <;> decide

/-- Claim C7: a request for an unknown category, for a category whose level
already equals its total level count, or for a resolved ordinal with no level
data, redirects to the summary page and leaves the session progress
unchanged. -/
theorem survey_failure_redirects_unchanged (s : Option Progress) (cat : String)
    (m : Method) (form : Form) :
    (lookupConfig (pyLower cat) = none →
      survey s cat m form = some (.redirectIndex, s)) ∧
    (∀ p levels cp, s = some p → lookupConfig (pyLower cat) = some levels →
      lookupCat p (pyLower cat) = some cp → cp.level = levels.length →
      survey s cat m form = some (.redirectIndex, some p)) ∧
    (∀ p levels cp, s = some p → lookupConfig (pyLower cat) = some levels →
      lookupCat p (pyLower cat) = some cp →
      levels.find? (fun lvl => decide (lvl.level = cp.level + 1)) = none →
      survey s cat m form = some (.redirectIndex, some p)) := by
  refine ⟨?_, ?_, ?_⟩
  · intro hc
    unfold survey
    exact survey_lc_unknown hc s m form
  · intro p levels cp hsp hc hl hfull
    subst hsp
    unfold survey
    exact survey_lc_complete (some p) m form hc hl (le_of_eq hfull.symm)
  · intro p levels cp hsp hc hl hfind
    subst hsp
    unfold survey
    by_cases hge : levels.length ≤ cp.level
    · exact survey_lc_complete (some p) m form hc hl hge
    · push_neg at hge
      simp only [survey_lc, get_user_progress, hc, hl, hfind]
      rw [if_neg (by omega)]

/-- Claim C8: the appended response record holds exactly one
(question, answer) pair per question of the resolved level, in question
order, the answer of question `i` being form field `"q<i>"` when present and
`""` otherwise; the submission itself always succeeds. -/
theorem submit_survey_answer_pairs (p : Progress) (cat : String) (form : Form)
    {levels : List LevelData} {cp : CatProgress}
    (hc : lookupConfig (pyLower cat) = some levels)
    (hp : lookupCat p (pyLower cat) = some cp)
    (hlt : cp.level < levels.length) :
    ∃ ld p' cp',
      levels.find? (fun lvl => decide (lvl.level = cp.level + 1)) = some ld ∧
      survey (some p) cat .POST form = some (.redirectIndex, some p') ∧
      lookupCat p' (pyLower cat) = some cp' ∧
      cp'.responses = cp.responses ++
        [{ level := cp.level + 1, answers := collectAnswers ld.questions form }] ∧
      (collectAnswers ld.questions form).length = ld.questions.length ∧
      (∀ (i : Nat) (q : String), ld.questions[i]? = some q →
        (collectAnswers ld.questions form)[i]? =
          some ({ question := q, answer := (form ("q" ++ toString i)).getD "" } : Answer)) := by
  obtain ⟨ld, hfind, hld⟩ := config_find_level hc hlt
  have hpost := survey_lc_post (some p) form hc hp hlt hfind
  refine ⟨ld, _, _, hfind, hpost, lookupCat_updateCat_self hp _, rfl, ?_, ?_⟩
  · simp [collectAnswers]
  · intro i q hq
    simp only [collectAnswers, List.getElem?_map, List.getElem?_enum, hq]
    rfl

/-- Claim C9: the `/survey/{category}` route lowercases the category before
any use, so a request behaves exactly as the request for the lowercased
category name. -/
theorem survey_case_insensitive (s : Option Progress) (cat : String) (m : Method)
    (form : Form) :
    survey s cat m form = survey s (pyLower cat) m form := by
  unfold survey
  rw [pyLower_idem]

/-- Claim C10: a successful GET of a survey page renders the next level's
questions and stores back exactly the record `get_user_progress` returned:
no category entry is mutated, and the only possible session change is the
lazy initialization of a fresh session. -/
theorem get_survey_preserves_progress (s : Option Progress) (cat : String) (form : Form)
    {levels : List LevelData} {cp : CatProgress}
    (hc : lookupConfig (pyLower cat) = some levels)
    (hp : lookupCat (get_user_progress s) (pyLower cat) = some cp)
    (hlt : cp.level < levels.length) :
    ∃ ld, levels.find? (fun lvl => decide (lvl.level = cp.level + 1)) = some ld ∧
      survey s cat .GET form =
        some (.renderSurvey (pyLower cat) (cp.level + 1) ld.questions,
          some (get_user_progress s)) ∧
      (∀ p, s = some p → survey s cat .GET form =
        some (.renderSurvey (pyLower cat) (cp.level + 1) ld.questions, some p)) := by
  obtain ⟨ld, hfind, hld⟩ := config_find_level hc hlt
  refine ⟨ld, hfind, ?_, ?_⟩
  · unfold survey
    exact survey_lc_get s form hc hp hlt hfind
  · intro p hsp
    subst hsp
    unfold survey
    exact survey_lc_get (some p) form hc hp hlt hfind

/-! ### Concrete witnesses -/

theorem submit_survey_advances_level_witness :
    (0:Nat) < 3 ∧
    ∃ p' cp' rec,
      survey (some initProgress) "physical" .POST (fun _ => none) =
        some (.redirectIndex, some p') ∧
      lookupCat p' (pyLower "physical") = some cp' ∧
      cp'.level = 1 ∧ cp'.responses = [rec] ∧ rec.level = 1 :=
  ⟨by decide,
    submit_survey_advances_level initProgress "physical" (fun _ => none) rfl rfl (by decide)⟩

theorem submit_survey_badge_on_final_level_witness :
    (2:Nat) < 3 ∧
    ∃ p' cp',
      survey (some (updateCat initProgress "mental"
          { level := 2, responses := [], badges := [] })) "mental" .POST (fun _ => none) =
        some (.redirectIndex, some p') ∧
      lookupCat p' (pyLower "mental") = some cp' ∧
      (2 + 1 = 3 → cp'.badges = ["Mental Champion"]) ∧
      (2 + 1 ≠ 3 → cp'.badges = ([] : List String)) :=
  ⟨by decide,
    submit_survey_badge_on_final_level
      (updateCat initProgress "mental" { level := 2, responses := [], badges := [] })
      "mental" (fun _ => none) rfl rfl (by decide)⟩

theorem reachable_progress_invariant_witness :
    0 ≤ (0:Nat) ∧ (0:Nat) ≤ 3 ∧
      ([] : List ResponseRecord).length = 0 ∧ ([] : List String).length ≤ 1 :=
  reachable_progress_invariant (Reach.getProgress Reach.init) rfl
    (rfl : lookupCat initProgress "spiritual" =
      some { level := 0, responses := [], badges := [] }) rfl

theorem level_monotone_bounded_terminal_witness :
    (0:Nat) ≤ 0 ∧ (0:Nat) ≤ 3 :=
  (level_monotone_bounded_terminal (Reach.getProgress Reach.init) "spiritual" .GET
      (fun _ => none) rfl).1
    initProgress initProgress "mental" { level := 0, responses := [], badges := [] }
    { level := 0, responses := [], badges := [] } _ rfl rfl rfl rfl rfl

theorem get_user_progress_init_idempotent_witness :
    lookupCat (get_user_progress none) "spiritual" =
      some { level := 0, responses := [], badges := [] } :=
  get_user_progress_init_idempotent.1.1 "spiritual" _ rfl

theorem percent_complete_is_exact_floor_witness :
    percent_complete 2
        (List.length
          [ ({ level := 1, questions :=
                [ "Did you practice a stress‑relief technique like mindfulness or deep breathing today?",
                  "Did you take a break from screens and social media for at least 30 minutes?" ] } : LevelData),
            { level := 2, questions :=
                [ "Have you connected with a friend, family member or counselor to talk about how you\x27re feeling?",
                  "Did you spend time on a hobby or creative activity that you enjoy?" ] },
            { level := 3, questions :=
                [ "Are you regularly journaling or reflecting on your emotions?",
                  "Do you feel you can manage stress and challenges in a healthy way?" ] } ]) =
      100 * 2 /
        (List.length
          [ ({ level := 1, questions :=
                [ "Did you practice a stress‑relief technique like mindfulness or deep breathing today?",
                  "Did you take a break from screens and social media for at least 30 minutes?" ] } : LevelData),
            { level := 2, questions :=
                [ "Have you connected with a friend, family member or counselor to talk about how you\x27re feeling?",
                  "Did you spend time on a hobby or creative activity that you enjoy?" ] },
            { level := 3, questions :=
                [ "Are you regularly journaling or reflecting on your emotions?",
                  "Do you feel you can manage stress and challenges in a healthy way?" ] } ]) :=
  percent_complete_is_exact_floor.1 "mental" _ 2 rfl (by decide)

theorem survey_failure_redirects_unchanged_witness :
    survey (some initProgress) "unknown" .GET (fun _ => none) =
      some (.redirectIndex, some initProgress) :=
  (survey_failure_redirects_unchanged (some initProgress) "unknown" .GET (fun _ => none)).1 rfl

theorem submit_survey_answer_pairs_witness :
    (0:Nat) < 3 ∧
    ∃ ld p' cp',
      List.find? (fun lvl => decide (lvl.level = 1))
        [ ({ level := 1, questions :=
              [ "Did you set aside time for prayer or meditation today?",
                "Did you read a passage from a religious or philosophical text?" ] } : LevelData),
          { level := 2, questions :=
              [ "Have you engaged in a community service or outreach activity this week?",
                "Have you participated in a group worship, study or reflection session recently?" ] },
          { level := 3, questions :=
              [ "Do you feel your spiritual practice is deepening over time?",
                "Are you mentoring or supporting others in their spiritual journey?" ] } ] = some ld ∧
      survey (some initProgress) "spiritual" .POST
          (fun f => if f = "q0" then some "yes" else none) =
        some (.redirectIndex, some p') ∧
      lookupCat p' (pyLower "spiritual") = some cp' ∧
      cp'.responses =
        [{ level := 1,
           answers := collectAnswers ld.questions
             (fun f => if f = "q0" then some "yes" else none) }] ∧
      (collectAnswers ld.questions
        (fun f => if f = "q0" then some "yes" else none)).length = ld.questions.length ∧
      (∀ (i : Nat) (q : String), ld.questions[i]? = some q →
        (collectAnswers ld.questions (fun f => if f = "q0" then some "yes" else none))[i]? =
          some ({ question := q,
                  answer := ((fun f => if f = "q0" then some "yes" else none)
                    ("q" ++ toString i)).getD "" } : Answer)) :=
  ⟨by decide,
    submit_survey_answer_pairs initProgress "spiritual"
      (fun f => if f = "q0" then some "yes" else none) rfl rfl (by decide)⟩

theorem get_survey_preserves_progress_witness :
    (0:Nat) < 3 ∧
    ∃ ld, List.find? (fun lvl => decide (lvl.level = 1))
        [ ({ level := 1, questions :=
              [ "Did you practice a stress‑relief technique like mindfulness or deep breathing today?",
                "Did you take a break from screens and social media for at least 30 minutes?" ] } : LevelData),
          { level := 2, questions :=
              [ "Have you connected with a friend, family member or counselor to talk about how you\x27re feeling?",
                "Did you spend time on a hobby or creative activity that you enjoy?" ] },
          { level := 3, questions :=
              [ "Are you regularly journaling or reflecting on your emotions?",
                "Do you feel you can manage stress and challenges in a healthy way?" ] } ] = some ld ∧
      survey none "mental" .GET (fun _ => none) =
        some (.renderSurvey "mental" 1 ld.questions, some (get_user_progress none)) ∧
      (∀ p, (none : Option Progress) = some p →
        survey none "mental" .GET (fun _ => none) =
          some (.renderSurvey "mental" 1 ld.questions, some p)) :=
  ⟨by decide,
    get_survey_preserves_progress none "mental" (fun _ => none) rfl rfl (by decide)⟩
